import Mathlib

/-
Shallow embedding of `sdk/ml/azure-ai-ml/azure/ai/ml/entities/_load_functions.py`:
the YAML-loading dispatch utility `load_common`, its helper `_try_load_yaml_dict`,
the per-entity wrappers, and `load_component`.

Python values relevant to source handling are modelled by `PyVal`; parse results
of the external `load_yaml` utility by `YamlVal`; raised exceptions by `PyErr`.
Collaborators defined outside this file tree (the YAML parser `load_yaml`, the
per-entity classes with their `_resolve_cls_and_type` / `_load` methods, and the
remote client) are abstract parameters; the pieces the spec describes but whose
code is absent are modelled from the spec and marked as such.
-/

namespace AzureAIML

/-- A Python value as it can appear in the `source` / `path` / `args` inputs of
the load functions: `None`, a `str` or `PathLike` value (both carry a string),
or a stream object optionally exposing a `name` attribute. -/
inductive PyVal where
  | vnone
  | vstr (s : String)
  | vstream (name : Option String)
deriving DecidableEq, Repr

/-- Python truthiness of a `PyVal`: `None` and the empty string are falsy;
non-empty strings and stream objects are truthy. -/
def pyTruthy : PyVal → Bool
  | .vnone => false
  | .vstr s => s != ""
  | .vstream _ => true

/-- A scalar YAML value inside the top-level parsed mapping. -/
inductive YVal where
  | ystr (s : String)
  | yint (n : Int)
  | ybool (b : Bool)
deriving DecidableEq, Repr

/-- The top-level parsed mapping: an association list from string keys to
values, first binding of a key wins on lookup. -/
abbrev Dict := List (String × YVal)

/-- Lookup of a key in a parsed mapping. -/
def dictGet : Dict → String → Option YVal
  | [], _ => none
  | (k, v) :: rest, key => if k = key then some v else dictGet rest key

/-- Setting a key in a parsed mapping: replaces the first existing binding,
or appends when the key is absent. -/
def dictSet : Dict → String → YVal → Dict
  | [], key, val => [(key, val)]
  | (k, v) :: rest, key, val =>
    if k = key then (key, val) :: rest else (k, v) :: dictSet rest key val

/-- Result of the external `load_yaml` parser: `None` (empty document), a
mapping, or some non-mapping value tagged with its Python type name (the
string that `type(...)` renders as). -/
inductive YamlVal where
  | ynull
  | ydict (d : Dict)
  | yother (typeName : String)
deriving DecidableEq, Repr

/-- Structured validation result. Modelled from the spec:
`_ValidationResultBuilder.from_validation_error` is defined outside this file
tree; per the spec a Validation Result is built from the raw error plus the
origin (for locating referenced files in error messages). -/
structure ValidationResult where
  rawError : String
  origin : String
deriving DecidableEq, Repr

/-- An exception raised by the load functions.
`validationException message target errorType` models
`azure.ai.ml._ml_exceptions.ValidationException` with its message, its
`ErrorTarget` and its `ValidationErrorType`; `marshmallow` models a re-raised
raw `marshmallow.ValidationError`; `typedValidation` models the typed exception
raised through `validation_result.try_raise` (modelled from the spec: the
method body is outside this file tree; per the spec it raises a typed exception
carrying the validation result, the error target, a base-path schema
description and the additional guidance message); `ioError` models an
untranslated lower-level I/O failure propagating out of the parser. -/
inductive PyErr where
  | validationException (message : String) (target : String) (errorType : String)
  | marshmallow (e : String)
  | typedValidation (vr : ValidationResult) (errorTarget : String)
      (schema : String) (additionalMessage : String)
  | ioError (message : String)
deriving DecidableEq, Repr

/-- A resolved concrete entity class, as used after
`cls._resolve_cls_and_type`: whether it subclasses `SchemaValidatableMixin`,
its `_get_validation_error_target()`, its
`_create_schema_for_validation_with_base_path()` description, and its `_load`
class method (which may raise a marshmallow validation error, modelled as
`Except.error` carrying the raw error). -/
structure ConcreteCls (E : Type) where
  isSchemaValidatable : Bool
  errorTarget : String
  schemaDesc : String
  load : Dict → String → List (String × YVal) → Except String E

/-- An entity family class as passed to `load_common` (Job, Workspace,
Component, ...): its `_resolve_cls_and_type` method, returning the concrete
subtype together with the observed discriminator string. -/
structure EntityCls (E : Type) where
  resolve_cls_and_type : Dict → List (String × YVal) → ConcreteCls E × Option String

/-- The injected remote client capability used by `load_component`, exposing
`components.get(name, version)`. -/
structure MLClient (E : Type) where
  components_get : String → String → E

def _DEFAULT_RELATIVE_ORIGIN : String := "./"

/-- Message of the empty-document error in `_try_load_yaml_dict`. -/
def emptyYamlMsg : String := "Target yaml file is empty"

/-- Message of the wrong-shape error in `_try_load_yaml_dict`, with the
observed Python type name already interpolated into the format string
used there. -/
def wrongShapeMsg (typeName : String) : String :=
  "Expect dict but get " ++ typeName ++ " after parsing yaml file"

/-- Message of the missing-value error in `load_component`. -/
def missingValueMsg : String :=
  "One of (client, name, version), (source) should be provided."

/-- The `additional_message` argument that `load_common` passes to
`try_raise`: empty when no discriminator string was observed, otherwise the
guidance text naming the expected type. -/
def additional_message : Option String → String
  | none => ""
  | some t =>
    "If you are trying to configure an entity that is not of type " ++ t ++
      ", please specify the correct type in the \x27type\x27 property."

/-- Modelled from the spec: `_ValidationResultBuilder.from_validation_error`
is outside this file tree; the spec says the Validation Result is built from
the raw error plus the origin. -/
def from_validation_error (e : String) (origin : String) : ValidationResult :=
  ⟨e, origin⟩

/-- The deprecated-path resolution at the top of `load_common` (and repeated
at the top of `load_component`): when `source is None`, take `args[0]` if
`args is not None and len(args) > 0`, else fall back to `path` when
`path is not None`, emitting the deprecation warning exactly in that fallback
case. Returns the effective source and whether the warning was emitted. -/
def resolve_source (source : PyVal) (args : Option (List PyVal)) (path : PyVal) :
    PyVal × Bool :=
  if source = PyVal.vnone then
    match args with
    | some (a :: _) => (a, false)
    | _ =>
      if path = PyVal.vnone then (PyVal.vnone, false) else (path, true)
  else (source, false)

/-- Origin derivation in `load_common`: when `relative_origin is None`, use the
source itself if it is a `str` or `PathLike`, else its `name` attribute, else
(on `AttributeError`, including `source is None`) the default marker. -/
def derive_origin (relative_origin : Option String) (source : PyVal) : String :=
  match relative_origin with
  | some o => o
  | none =>
    match source with
    | .vstr s => s
    | .vstream (some n) => n
    | .vstream none => _DEFAULT_RELATIVE_ORIGIN
    | .vnone => _DEFAULT_RELATIVE_ORIGIN

/-- `_try_load_yaml_dict`: run the external parser (whose semantics is the
`load_yaml` parameter; its own failures, e.g. I/O errors, propagate
untranslated), then fail with the empty-document `ValidationException` when
the result is `None`, with the wrong-shape `ValidationException` naming the
observed type when the result is not a dict, and return the dict otherwise. -/
def _try_load_yaml_dict (load_yaml : PyVal → Except PyErr YamlVal)
    (source : PyVal) : Except PyErr Dict :=
  match load_yaml source with
  | .error e => .error e
  | .ok .ynull =>
    .error (.validationException emptyYamlMsg "COMPONENT" "CANNOT_PARSE")
  | .ok (.yother t) =>
    .error (.validationException (wrongShapeMsg t) "COMPONENT" "CANNOT_PARSE")
  | .ok (.ydict d) => .ok d

/-- The pipeline of `load_common` after source resolution: derive the origin,
default `params_override`, materialize the YAML dict, resolve the concrete
class and discriminator string, construct the entity, and on a marshmallow
validation error either raise the typed exception built through
`_ValidationResultBuilder` / `try_raise` (when the resolved class is a
`SchemaValidatableMixin`) or re-raise the raw error unchanged. -/
def load_after_resolve {E : Type} (load_yaml : PyVal → Except PyErr YamlVal)
    (cls : EntityCls E) (src : PyVal) (relative_origin : Option String)
    (params_override : Option (List (String × YVal))) : Except PyErr E :=
  let origin := derive_origin relative_origin src
  let po := params_override.getD []
  match _try_load_yaml_dict load_yaml src with
  | .error e => .error e
  | .ok yaml_dict =>
    let rc := cls.resolve_cls_and_type yaml_dict po
    match rc.1.load yaml_dict origin po with
    | .ok entity => .ok entity
    | .error me =>
      if rc.1.isSchemaValidatable then
        .error (.typedValidation (from_validation_error me origin)
          rc.1.errorTarget rc.1.schemaDesc (additional_message rc.2))
      else
        .error (.marshmallow me)

/-- `load_common`: deprecated-path resolution followed by the loading
pipeline. The second component records whether the deprecation warning was
emitted during this call. -/
def load_common {E : Type} (load_yaml : PyVal → Except PyErr YamlVal)
    (cls : EntityCls E) (source : PyVal) (path : PyVal)
    (relative_origin : Option String) (args : Option (List PyVal))
    (params_override : Option (List (String × YVal))) :
    Except PyErr E × Bool :=
  let r := resolve_source source args path
  (load_after_resolve load_yaml cls r.1 relative_origin params_override, r.2)

/-- Common body of the fifteen per-entity wrappers (`load_job`,
`load_workspace`, `load_registry`, ...): each is exactly
`load_common(Cls, source, path, relative_origin, args, **kwargs)` for its
family class, with `args` the positional tuple (never `None` when called
through the wrapper). -/
def load_entity_wrapper {E : Type} (cls : EntityCls E)
    (load_yaml : PyVal → Except PyErr YamlVal) (args : List PyVal)
    (source : PyVal) (relative_origin : Option String) (path : PyVal)
    (params_override : Option (List (String × YVal))) :
    Except PyErr E × Bool :=
  load_common load_yaml cls source path relative_origin (some args) params_override

/-- The remote triple check in `load_component`: Python
`elif client and name and version`, where `None` and the empty string are
falsy. Returns the client and the two strings when all three are truthy. -/
def remote_triple {E : Type} (client : Option (MLClient E))
    (name version : Option String) : Option (MLClient E × String × String) :=
  match client, name, version with
  | some c, some n, some v => if n != "" && v != "" then some (c, n, v) else none
  | _, _, _ => none

/-- `load_component`: pop `client` / `name` / `version` from the kwargs,
perform the deprecated-path resolution early, then: if the resolved source is
truthy, load locally through `load_common(Component, source, path,
relative_origin, args, **kwargs)`; else if the full remote triple is truthy,
return `client.components.get(name, version)`; else raise the missing-value
`ValidationException`. The second component records whether the deprecation
warning was emitted. -/
def load_component {E : Type} (load_yaml : PyVal → Except PyErr YamlVal)
    (componentCls : EntityCls E) (source : PyVal) (path : PyVal)
    (relative_origin : Option String) (args : Option (List PyVal))
    (params_override : Option (List (String × YVal)))
    (client : Option (MLClient E)) (name version : Option String) :
    Except PyErr E × Bool :=
  let r := resolve_source source args path
  if pyTruthy r.1 then
    let res := load_common load_yaml componentCls r.1 path relative_origin args
      params_override
    (res.1, r.2 || res.2)
  else
    match remote_triple client name version with
    | some (c, n, v) => (.ok (c.components_get n v), r.2)
    | none =>
      (.error (.validationException missingValueMsg "COMPONENT" "MISSING_VALUE"),
        r.2)

/-- Modelled from the spec: the per-entity `_load` class methods are outside
this file tree; per the spec, overrides are applied on top of parsed document
values, in list order, with override entries taking precedence (last override
for a given path wins). -/
def apply_overrides (d : Dict) (po : List (String × YVal)) : Dict :=
  po.foldl (fun acc kv => dictSet acc kv.1 kv.2) d

/-- A parser semantics that yields a one-key mapping, as for a well-formed
component YAML file. -/
def dictLY : PyVal → Except PyErr YamlVal :=
  fun _ => .ok (.ydict [("type", .ystr "command")])

/-- A parser semantics that yields `None`, as for an empty YAML file. -/
def nullLY : PyVal → Except PyErr YamlVal := fun _ => .ok .ynull

/-- A parser semantics that yields a non-mapping (a YAML sequence). -/
def seqLY : PyVal → Except PyErr YamlVal :=
  fun _ => .ok (.yother "<class \x27list\x27>")

/-- A parser semantics that raises an untranslated I/O error. -/
def ioFailLY : PyVal → Except PyErr YamlVal :=
  fun _ => .error (.ioError "No such file or directory")

/-- A concrete entity class whose `_load` follows the spec-modelled override
application and always succeeds. -/
def specConcrete : ConcreteCls Dict :=
  ⟨true, "COMPONENT", "base path schema", fun d _ po => .ok (apply_overrides d po)⟩

/-- An entity family class resolving to `specConcrete` with no observed
discriminator string. -/
def specCls : EntityCls Dict := ⟨fun _ _ => (specConcrete, none)⟩

/-- A schema-validatable concrete class whose `_load` raises a marshmallow
validation error. -/
def failConcrete : ConcreteCls Dict :=
  ⟨true, "COMPONENT", "base path schema", fun _ _ _ => .error "missing required field"⟩

/-- An entity family class resolving to `failConcrete` with discriminator
string `command`. -/
def failCls : EntityCls Dict := ⟨fun _ _ => (failConcrete, some "command")⟩

/-- A concrete class that is not a `SchemaValidatableMixin` and whose `_load`
raises a marshmallow validation error. -/
def rawConcrete : ConcreteCls Dict :=
  ⟨false, "COMPONENT", "base path schema", fun _ _ _ => .error "missing required field"⟩

/-- An entity family class resolving to `rawConcrete` with no discriminator. -/
def rawCls : EntityCls Dict := ⟨fun _ _ => (rawConcrete, none)⟩

/-- A remote client whose `components.get` returns a recognizable record. -/
def sampleClient : MLClient Dict :=
  ⟨fun n v => [("name", .ystr n), ("version", .ystr v)]⟩

/-- Setting a key then looking it up yields the set value. -/
theorem dictGet_dictSet_self (d : Dict) (k : String) (v : YVal) :
    dictGet (dictSet d k v) k = some v := by
  induction d with
  | nil => simp [dictSet, dictGet]
  | cons hd tl ih =>
    rcases hd with ⟨a, b⟩
    by_cases h : a = k
    · simp [dictSet, h, dictGet]
    · simp [dictSet, h, dictGet, ih]

/-- Appending one more override applies it last, on top of the others. -/
theorem apply_overrides_append (d : Dict) (po : List (String × YVal))
    (k : String) (v : YVal) :
    apply_overrides d (po ++ [(k, v)]) = dictSet (apply_overrides d po) k v := by
  simp [apply_overrides, List.foldl_append]

/-- When at least one of the remote triple is absent (or an empty string),
the Python condition `client and name and version` is falsy. -/
theorem remote_triple_none {E : Type} (client : Option (MLClient E))
    (name version : Option String)
    (h : client = none ∨ name = none ∨ version = none ∨
      name = some "" ∨ version = some "") :
    remote_triple client name version = none := by
  rcases h with rfl | rfl | rfl | rfl | rfl
  · cases name <;> cases version <;> rfl
  · cases client <;> cases version <;> rfl
  · cases client <;> cases name <;> rfl
  · cases client <;> cases version <;> simp [remote_triple]
  · cases client <;> cases name <;> simp [remote_triple]

/-- A source that is not `None` is kept as-is by the deprecated-path
resolution, with no warning. -/
theorem resolve_source_of_ne (source : PyVal) (h : source ≠ PyVal.vnone)
    (args : Option (List PyVal)) (path : PyVal) :
    resolve_source source args path = (source, false) := by
  simp [resolve_source, h]

/-- C1: in `load_common`, when `source` is `None` the effective source becomes
`args[0]` if the positional tuple is non-empty (no warning), else the legacy
`path` when it is not `None` (emitting the deprecation warning exactly then);
no warning when `source` was given; and when `source`, `args` and `path` are
all absent, resolution returns `None` with no warning and no error. -/
theorem C1_source_resolution :
    (∀ (a : PyVal) (rest : List PyVal) (path : PyVal),
      resolve_source PyVal.vnone (some (a :: rest)) path = (a, false)) ∧
    (∀ (path : PyVal) (args : Option (List PyVal)),
      (args = none ∨ args = some []) → path ≠ PyVal.vnone →
      resolve_source PyVal.vnone args path = (path, true)) ∧
    (∀ (source path : PyVal) (args : Option (List PyVal)),
      source ≠ PyVal.vnone → resolve_source source args path = (source, false)) ∧
    (∀ (args : Option (List PyVal)), (args = none ∨ args = some []) →
      resolve_source PyVal.vnone args PyVal.vnone = (PyVal.vnone, false)) := by
  refine ⟨?_, ?_, ?_, ?_⟩
  · intro a rest path; simp [resolve_source]
  · rintro path args (rfl | rfl) hp <;> simp [resolve_source, hp]
  · intro source path args hs; simp [resolve_source, hs]
  · rintro args (rfl | rfl) <;> simp [resolve_source]

/-- Witness for C1 at concrete inputs: path fallback warns, named source does
not, and the all-absent case resolves to `None` without error. -/
theorem C1_source_resolution_witness :
    resolve_source PyVal.vnone (some []) (PyVal.vstr "job.yaml") =
      (PyVal.vstr "job.yaml", true) ∧
    resolve_source (PyVal.vstr "job.yaml") (some []) PyVal.vnone =
      (PyVal.vstr "job.yaml", false) ∧
    resolve_source PyVal.vnone (some []) PyVal.vnone = (PyVal.vnone, false) :=
  ⟨C1_source_resolution.2.1 _ _ (Or.inr rfl) (by simp),
   C1_source_resolution.2.2.1 _ _ _ (by simp),
   C1_source_resolution.2.2.2 _ (Or.inr rfl)⟩

/-- C2: whenever the parser yields `None`, any load call fails with the
empty-document `ValidationException`, and whenever it yields a non-mapping
the call fails with the wrong-shape `ValidationException` whose message
includes the observed type; in both cases the outcome does not depend on the
entity class, i.e. the error arises before any type resolution or entity
construction. -/
theorem C2_yaml_materialization {E : Type}
    (load_yaml : PyVal → Except PyErr YamlVal) (cls cls' : EntityCls E)
    (source path : PyVal) (ro : Option String) (args : Option (List PyVal))
    (po : Option (List (String × YVal))) :
    (load_yaml (resolve_source source args path).1 = .ok .ynull →
      load_common load_yaml cls source path ro args po =
        (.error (.validationException emptyYamlMsg "COMPONENT" "CANNOT_PARSE"),
          (resolve_source source args path).2) ∧
      load_common load_yaml cls source path ro args po =
        load_common load_yaml cls' source path ro args po) ∧
    (∀ t, load_yaml (resolve_source source args path).1 = .ok (.yother t) →
      load_common load_yaml cls source path ro args po =
        (.error (.validationException
            ("Expect dict but get " ++ t ++ " after parsing yaml file")
            "COMPONENT" "CANNOT_PARSE"),
          (resolve_source source args path).2) ∧
      load_common load_yaml cls source path ro args po =
        load_common load_yaml cls' source path ro args po) := by
  constructor
  · intro hy
    constructor <;>
      simp [load_common, load_after_resolve, _try_load_yaml_dict, hy]
  · intro t hy
    constructor <;>
      simp [load_common, load_after_resolve, _try_load_yaml_dict, hy, wrongShapeMsg]

/-- Witness for C2: an empty document and a sequence document, each failing
with the corresponding `ValidationException` at a concrete call. -/
theorem C2_yaml_materialization_witness :
    nullLY (resolve_source (PyVal.vstr "a.yaml") (some []) PyVal.vnone).1 =
      .ok .ynull ∧
    load_common nullLY specCls (PyVal.vstr "a.yaml") PyVal.vnone none (some []) none =
      (.error (.validationException emptyYamlMsg "COMPONENT" "CANNOT_PARSE"), false) ∧
    load_common seqLY specCls (PyVal.vstr "a.yaml") PyVal.vnone none (some []) none =
      (.error (.validationException
          ("Expect dict but get " ++ "<class \x27list\x27>" ++ " after parsing yaml file")
          "COMPONENT" "CANNOT_PARSE"), false) :=
  ⟨rfl,
   ((C2_yaml_materialization nullLY specCls rawCls _ _ _ _ _).1 rfl).1,
   ((C2_yaml_materialization seqLY specCls rawCls _ _ _ _ _).2 _ rfl).1⟩

/-- C3: `load_component` with `source`, `args[0]` and `path` all absent and at
least one of `client` / `name` / `version` missing (falsy) raises the
missing-value `ValidationException`; the outcome does not depend on the
parser semantics or the component class, so local parsing and the remote
fetch are both bypassed. -/
theorem C3_component_missing_value {E : Type} (ro : Option String)
    (po : Option (List (String × YVal))) (args : Option (List PyVal))
    (client : Option (MLClient E)) (name version : Option String)
    (hargs : args = none ∨ args = some [])
    (hmiss : client = none ∨ name = none ∨ version = none ∨
      name = some "" ∨ version = some "") :
    ∀ (load_yaml : PyVal → Except PyErr YamlVal) (componentCls : EntityCls E),
      load_component load_yaml componentCls PyVal.vnone PyVal.vnone ro args po
          client name version =
        (.error (.validationException missingValueMsg "COMPONENT" "MISSING_VALUE"),
          false) := by
  intro ly ccls
  have hr : resolve_source PyVal.vnone args PyVal.vnone = (PyVal.vnone, false) := by
    rcases hargs with rfl | rfl <;> simp [resolve_source]
  have ht := remote_triple_none client name version hmiss
  simp [load_component, hr, ht, pyTruthy]

/-- Witness for C3: the fully-absent call fails with the missing-value
error. -/
theorem C3_component_missing_value_witness :
    load_component nullLY specCls PyVal.vnone PyVal.vnone none (some []) none
        none none none =
      (.error (.validationException missingValueMsg "COMPONENT" "MISSING_VALUE"),
        false) :=
  C3_component_missing_value none none (some []) none none none
    (Or.inr rfl) (Or.inl rfl) nullLY specCls

/-- C4: `load_component` with no source (and no args/path fallback) but the
full `client` / `name` / `version` triple returns exactly
`client.components.get(name, version)`; the outcome does not depend on the
parser semantics or on the component class, so no YAML parsing and no local
entity construction are performed. -/
theorem C4_component_remote_fetch {E : Type} (ro : Option String)
    (po : Option (List (String × YVal))) (args : Option (List PyVal))
    (hargs : args = none ∨ args = some [])
    (c : MLClient E) (n v : String) (hn : n ≠ "") (hv : v ≠ "") :
    ∀ (load_yaml : PyVal → Except PyErr YamlVal) (componentCls : EntityCls E),
      load_component load_yaml componentCls PyVal.vnone PyVal.vnone ro args po
          (some c) (some n) (some v) =
        (.ok (c.components_get n v), false) := by
  intro ly ccls
  have hr : resolve_source PyVal.vnone args PyVal.vnone = (PyVal.vnone, false) := by
    rcases hargs with rfl | rfl <;> simp [resolve_source]
  have ht : remote_triple (some c) (some n) (some v) = some (c, n, v) := by
    simp [remote_triple, bne, hn, hv]
  simp [load_component, hr, ht, pyTruthy]

/-- Witness for C4: a concrete remote fetch returns the client record. -/
theorem C4_component_remote_fetch_witness :
    load_component nullLY specCls PyVal.vnone PyVal.vnone none (some []) none
        (some sampleClient) (some "my_component") (some "1") =
      (.ok (sampleClient.components_get "my_component" "1"), false) :=
  C4_component_remote_fetch none none (some []) (Or.inr rfl) sampleClient
    "my_component" "1" (by simp) (by simp) nullLY specCls

/-- C5: for every entity family (every entity class) and every provided path
value `p`, the legacy call `load_F(path=p)` produces the same result as
`load_F(source=p)`, the legacy form emitting the deprecation warning and the
`source` form not. -/
theorem C5_legacy_path_equivalence {E : Type}
    (load_yaml : PyVal → Except PyErr YamlVal) (cls : EntityCls E)
    (p : PyVal) (hp : p ≠ PyVal.vnone) (ro : Option String)
    (po : Option (List (String × YVal))) :
    (load_entity_wrapper cls load_yaml [] PyVal.vnone ro p po).1 =
      (load_entity_wrapper cls load_yaml [] p ro PyVal.vnone po).1 ∧
    (load_entity_wrapper cls load_yaml [] PyVal.vnone ro p po).2 = true ∧
    (load_entity_wrapper cls load_yaml [] p ro PyVal.vnone po).2 = false := by
  have h1 : resolve_source PyVal.vnone (some []) p = (p, true) := by
    simp [resolve_source, hp]
  have h2 : resolve_source p (some []) PyVal.vnone = (p, false) := by
    simp [resolve_source, hp]
  refine ⟨?_, ?_, ?_⟩ <;> simp [load_entity_wrapper, load_common, h1, h2]

/-- Witness for C5 at a concrete path: identical outcome, warning only in the
legacy form. -/
theorem C5_legacy_path_equivalence_witness :
    (load_entity_wrapper specCls nullLY [] PyVal.vnone none (PyVal.vstr "job.yaml") none).1 =
      (load_entity_wrapper specCls nullLY [] (PyVal.vstr "job.yaml") none PyVal.vnone none).1 ∧
    (load_entity_wrapper specCls nullLY [] PyVal.vnone none (PyVal.vstr "job.yaml") none).2 = true ∧
    (load_entity_wrapper specCls nullLY [] (PyVal.vstr "job.yaml") none PyVal.vnone none).2 = false :=
  C5_legacy_path_equivalence nullLY specCls (PyVal.vstr "job.yaml") (by simp) none none

/-- C6: when `relative_origin` is absent, a string or path source becomes the
origin itself; a stream exposing a `name` attribute yields that name (in
particular `/tmp/foo.yaml`); a nameless stream, or an absent source, yields
the default marker `./`. -/
theorem C6_origin_derivation :
    (∀ s : String, derive_origin none (PyVal.vstr s) = s) ∧
    (∀ n : String, derive_origin none (PyVal.vstream (some n)) = n) ∧
    derive_origin none (PyVal.vstream (some "/tmp/foo.yaml")) = "/tmp/foo.yaml" ∧
    derive_origin none (PyVal.vstream none) = "./" ∧
    derive_origin none PyVal.vnone = "./" :=
  ⟨fun _ => rfl, fun _ => rfl, rfl, rfl, rfl⟩

/-- C7: when entity construction raises a marshmallow validation error, the
load call raises the typed exception exactly when the resolved class is
schema-validatable — carrying the Validation Result built from the raw error
and the origin, the class error target, its base-path schema description and
the additional guidance message — and re-raises the raw error unchanged
otherwise; the guidance text is empty when no discriminator string was
observed and names the expected type when one was. -/
theorem C7_error_translation {E : Type}
    (load_yaml : PyVal → Except PyErr YamlVal) (cls : EntityCls E)
    (source path : PyVal) (ro : Option String) (args : Option (List PyVal))
    (po : Option (List (String × YVal))) (d : Dict) (me : String)
    (hy : load_yaml (resolve_source source args path).1 = .ok (.ydict d))
    (hload : (cls.resolve_cls_and_type d (po.getD [])).1.load d
        (derive_origin ro (resolve_source source args path).1) (po.getD []) =
      .error me) :
    ((load_common load_yaml cls source path ro args po).1 =
      if (cls.resolve_cls_and_type d (po.getD [])).1.isSchemaValidatable then
        .error (.typedValidation
          (from_validation_error me
            (derive_origin ro (resolve_source source args path).1))
          (cls.resolve_cls_and_type d (po.getD [])).1.errorTarget
          (cls.resolve_cls_and_type d (po.getD [])).1.schemaDesc
          (additional_message (cls.resolve_cls_and_type d (po.getD [])).2))
      else .error (.marshmallow me)) ∧
    additional_message none = "" ∧
    (∀ t, additional_message (some t) =
      "If you are trying to configure an entity that is not of type " ++ t ++
        ", please specify the correct type in the \x27type\x27 property.") := by
  refine ⟨?_, rfl, fun _ => rfl⟩
  simp [load_common, load_after_resolve, _try_load_yaml_dict, hy, hload]

/-- Witness for C7: a schema-validatable class yields the typed exception with
the guidance naming the observed discriminator, a non-validatable class gets
the raw marshmallow error re-raised. -/
theorem C7_error_translation_witness :
    (load_common dictLY failCls (PyVal.vstr "c.yaml") PyVal.vnone none (some []) none).1 =
      .error (.typedValidation ⟨"missing required field", "c.yaml"⟩ "COMPONENT"
        "base path schema" (additional_message (some "command"))) ∧
    (load_common dictLY rawCls (PyVal.vstr "c.yaml") PyVal.vnone none (some []) none).1 =
      .error (.marshmallow "missing required field") :=
  ⟨by
    have h := (C7_error_translation dictLY failCls (PyVal.vstr "c.yaml")
      PyVal.vnone none (some []) none [("type", .ystr "command")]
      "missing required field" rfl rfl).1
    simpa [failCls, failConcrete, from_validation_error] using h,
   by
    have h := (C7_error_translation dictLY rawCls (PyVal.vstr "c.yaml")
      PyVal.vnone none (some []) none [("type", .ystr "command")]
      "missing required field" rfl rfl).1
    simpa [rawCls, rawConcrete] using h⟩

/-- C8: when `load_component` is called with a truthy source and the full
remote triple at once, the result is exactly that of the local
`load_common` parse — for every client, so `client.components.get` is never
consulted. -/
theorem C8_local_source_precedence {E : Type}
    (load_yaml : PyVal → Except PyErr YamlVal) (componentCls : EntityCls E)
    (source path : PyVal) (ro : Option String) (args : Option (List PyVal))
    (po : Option (List (String × YVal))) (hsrc : pyTruthy source = true) :
    ∀ (c : MLClient E) (n v : String), n ≠ "" → v ≠ "" →
      load_component load_yaml componentCls source path ro args po
          (some c) (some n) (some v) =
        load_common load_yaml componentCls source path ro args po := by
  intro c n v _ _
  have hne : source ≠ PyVal.vnone := by
    intro h; rw [h] at hsrc; simp [pyTruthy] at hsrc
  have hr := resolve_source_of_ne source hne args path
  simp [load_component, hr, hsrc, load_common]

/-- Witness for C8: with both a truthy source and a full triple, the outcome
is the local parse and ignores the client. -/
theorem C8_local_source_precedence_witness :
    load_component dictLY specCls (PyVal.vstr "c.yaml") PyVal.vnone none (some [])
        none (some sampleClient) (some "my_component") (some "1") =
      load_common dictLY specCls (PyVal.vstr "c.yaml") PyVal.vnone none (some []) none :=
  C8_local_source_precedence dictLY specCls (PyVal.vstr "c.yaml") PyVal.vnone
    none (some []) none rfl sampleClient "my_component" "1" (by simp) (by simp)

/-- C9: override entries take precedence over parsed document values and are
applied in list order (the last override for a key wins); in particular a
load of a document lacking a `name` field with
`params_override=[("name","a"),("name","b")]` constructs an entity whose
`name` is `b`. -/
theorem C9_override_precedence :
    (∀ (d : Dict) (po : List (String × YVal)) (k : String) (v : YVal),
      dictGet (apply_overrides d (po ++ [(k, v)])) k = some v) ∧
    (∀ (d : Dict) (load_yaml : PyVal → Except PyErr YamlVal),
      dictGet d "name" = none →
      load_yaml (PyVal.vstr "conf.yaml") = .ok (.ydict d) →
      ∃ e, (load_common load_yaml specCls (PyVal.vstr "conf.yaml") PyVal.vnone
          none (some [])
          (some [("name", YVal.ystr "a"), ("name", YVal.ystr "b")])).1 = .ok e ∧
        dictGet e "name" = some (YVal.ystr "b")) := by
  constructor
  · intro d po k v
    rw [apply_overrides_append]
    exact dictGet_dictSet_self _ _ _
  · intro d ly _ hy
    refine ⟨apply_overrides d [("name", .ystr "a"), ("name", .ystr "b")], ?_, ?_⟩
    · simp [load_common, load_after_resolve, _try_load_yaml_dict, resolve_source,
        hy, specCls, specConcrete]
    · simp only [apply_overrides, List.foldl_cons, List.foldl_nil]
      exact dictGet_dictSet_self _ _ _

/-- Witness for C9: a concrete document without a `name` field, loaded with
the two-entry override list, yields an entity whose `name` is `b`. -/
theorem C9_override_precedence_witness :
    dictGet [("type", YVal.ystr "command")] "name" = none ∧
    ∃ e, (load_common dictLY specCls (PyVal.vstr "conf.yaml") PyVal.vnone none
        (some [])
        (some [("name", YVal.ystr "a"), ("name", YVal.ystr "b")])).1 = .ok e ∧
      dictGet e "name" = some (YVal.ystr "b") :=
  ⟨by decide,
   C9_override_precedence.2 [("type", YVal.ystr "command")] dictLY (by decide) rfl⟩

/-- C10: a falsy-but-not-`None` source (the empty string), whether given as
`source`, as `args[0]`, or as `path`, makes `load_component` skip the local
branch (truthiness test) and, absent a full remote triple, raise the
missing-value error — with the deprecation warning still emitted in the
`path` case; the plain wrappers instead forward the falsy source to the YAML
loader, whose failure propagates untranslated. -/
theorem C10_falsy_source {E : Type}
    (load_yaml : PyVal → Except PyErr YamlVal) (componentCls : EntityCls E)
    (ro : Option String) (po : Option (List (String × YVal)))
    (client : Option (MLClient E)) (name version : Option String)
    (hmiss : client = none ∨ name = none ∨ version = none ∨
      name = some "" ∨ version = some "") :
    (load_component load_yaml componentCls (PyVal.vstr "") PyVal.vnone ro
        (some []) po client name version =
      (.error (.validationException missingValueMsg "COMPONENT" "MISSING_VALUE"),
        false)) ∧
    (load_component load_yaml componentCls PyVal.vnone PyVal.vnone ro
        (some [PyVal.vstr ""]) po client name version =
      (.error (.validationException missingValueMsg "COMPONENT" "MISSING_VALUE"),
        false)) ∧
    (load_component load_yaml componentCls PyVal.vnone (PyVal.vstr "") ro
        (some []) po client name version =
      (.error (.validationException missingValueMsg "COMPONENT" "MISSING_VALUE"),
        true)) ∧
    (∀ (cls : EntityCls E) (e : PyErr), load_yaml (PyVal.vstr "") = .error e →
      (load_entity_wrapper cls load_yaml [] (PyVal.vstr "") ro PyVal.vnone po).1 =
        .error e) := by
  have ht := remote_triple_none client name version hmiss
  refine ⟨?_, ?_, ?_, ?_⟩
  · simp [load_component, resolve_source, pyTruthy, ht]
  · simp [load_component, resolve_source, pyTruthy, ht]
  · simp [load_component, resolve_source, pyTruthy, ht]
  · intro cls e he
    simp [load_entity_wrapper, load_common, load_after_resolve,
      _try_load_yaml_dict, resolve_source, he]

/-- Witness for C10: the empty-string source makes `load_component` raise the
missing-value error, while the plain wrapper surfaces the I/O failure of the
parser. -/
theorem C10_falsy_source_witness :
    load_component ioFailLY specCls (PyVal.vstr "") PyVal.vnone none (some [])
        none none none none =
      (.error (.validationException missingValueMsg "COMPONENT" "MISSING_VALUE"),
        false) ∧
    (load_entity_wrapper specCls ioFailLY [] (PyVal.vstr "") none PyVal.vnone none).1 =
      .error (.ioError "No such file or directory") :=
  ⟨(C10_falsy_source ioFailLY specCls none none none none none (Or.inl rfl)).1,
   (C10_falsy_source ioFailLY specCls none none none none none
      (Or.inl rfl)).2.2.2 specCls _ rfl⟩

end AzureAIML
